import Mathlib

/-!
Verification of the hallucination-evaluation pipeline:
  * `run_all_prompts.py` — request dispatcher with a bounded-retry wrapper,
  * `evaluate_results.py` — result aggregator (answer normalizer, rate tables),
  * `find_typical_cases.py` — case finder (join of two prompt variants).

Python strings are modelled as Lean `String` (a sequence of code points,
matching Python's `str`), and the string methods used by the source
(`strip`, `lower`, `startswith`, `split`, `in`, `int(...)`) are re-implemented
below on the underlying character list, following CPython semantics for the
fragments the source exercises.
-/

namespace MRP

/-- The whitespace code points Python's `str.strip()` / `str.isspace()`
recognise: ASCII whitespace, the C1 controls 0x1c-0x1f and 0x85, and the
Unicode space separators. -/
def pyIsSpace (c : Char) : Bool :=
  c.val ∈ ([9, 10, 11, 12, 13, 28, 29, 30, 31, 32, 0x85, 0xA0, 0x1680,
    0x2000, 0x2001, 0x2002, 0x2003, 0x2004, 0x2005, 0x2006, 0x2007, 0x2008,
    0x2009, 0x200A, 0x2028, 0x2029, 0x202F, 0x205F, 0x3000] : List UInt32)

/-- One character of Python's `str.lower()`. The source only ever inspects
the characters a-z after lowering, and no character outside A-Z lowers to a
character the source tests for, so the ASCII table is extensionally adequate
for every use in the repository. -/
def pyLowerChar (c : Char) : Char :=
  if c = 'A' then 'a' else if c = 'B' then 'b' else if c = 'C' then 'c'
  else if c = 'D' then 'd' else if c = 'E' then 'e' else if c = 'F' then 'f'
  else if c = 'G' then 'g' else if c = 'H' then 'h' else if c = 'I' then 'i'
  else if c = 'J' then 'j' else if c = 'K' then 'k' else if c = 'L' then 'l'
  else if c = 'M' then 'm' else if c = 'N' then 'n' else if c = 'O' then 'o'
  else if c = 'P' then 'p' else if c = 'Q' then 'q' else if c = 'R' then 'r'
  else if c = 'S' then 's' else if c = 'T' then 't' else if c = 'U' then 'u'
  else if c = 'V' then 'v' else if c = 'W' then 'w' else if c = 'X' then 'x'
  else if c = 'Y' then 'y' else if c = 'Z' then 'z' else c

/-- Python `s.strip()`: drop leading and trailing whitespace. -/
def pyStrip (s : String) : String :=
  String.mk (((s.data.dropWhile pyIsSpace).reverse.dropWhile pyIsSpace).reverse)

/-- Python `s.lower()`. -/
def pyLower (s : String) : String :=
  String.mk (s.data.map pyLowerChar)

/-- Python `s.startswith(pre)`. -/
def pyStartswith (s pre : String) : Bool :=
  pre.data.isPrefixOf s.data

/-- A Python value in the positions the scripts read from JSON / errors:
a string, an integer, a float, a boolean, or `None`. -/
inductive PyVal where
  | str (s : String)
  | int (n : Int)
  | float (q : ℚ)
  | bool (b : Bool)
  | none
deriving DecidableEq

/-- `normalize_answer` from `evaluate_results.py`: non-strings map to
"unknown"; a string is stripped, lowered, and classified by its first
character. -/
def normalize_answer (ans : PyVal) : String :=
  match ans with
  | .str s =>
    let t := pyLower (pyStrip s)
    if pyStartswith t "y" then "yes"
    else if pyStartswith t "n" then "no"
    else "unknown"
  | _ => "unknown"

/-- `normalize` from `find_typical_cases.py`: identical to `normalize_answer`
except that it lowers before stripping (`ans.lower().strip()`). -/
def normalize (ans : PyVal) : String :=
  match ans with
  | .str s =>
    let t := pyStrip (pyLower s)
    if pyStartswith t "y" then "yes"
    else if pyStartswith t "n" then "no"
    else "unknown"
  | _ => "unknown"

example : normalize_answer (.str "  Yes, partially") = "yes" := by decide
example : normalize_answer (.str " No") = "no" := by decide
example : normalize_answer (.str "") = "unknown" := by decide
example : normalize_answer (.int 3) = "unknown" := by decide
example : normalize (.str "  nope ") = "no" := by decide

/-! ## The bounded-retry wrapper (`call_with_retries` in `run_all_prompts.py`) -/

/-- Whether `sub` occurs as a contiguous run inside `l`. -/
def listContainsRun (sub : List Char) : List Char → Bool
  | [] => sub.isPrefixOf []
  | c :: rest => sub.isPrefixOf (c :: rest) || listContainsRun sub rest

/-- Python `sub in msg` (substring containment). -/
def pyIn (sub msg : String) : Bool :=
  listContainsRun sub.data msg.data

/-- Worker for Python `str.split(sep)` with a non-empty separator: scan left to
right, cutting at each non-overlapping occurrence of `sep`. `fuel` is the
length of the remaining text; since a cut consumes at least one character the
fuel never runs out, and the `0` case is unreachable. -/
def pySplitAux (sep : List Char) : Nat → List Char → List Char → List (List Char)
  | _, acc, [] => [acc.reverse]
  | 0, acc, l => [acc.reverse ++ l]
  | fuel + 1, acc, c :: rest =>
    if sep.isPrefixOf (c :: rest) then
      acc.reverse :: pySplitAux sep fuel [] (List.drop sep.length (c :: rest))
    else
      pySplitAux sep fuel (c :: acc) rest

/-- Python `s.split(sep)`. The source only splits on the non-empty literals
"try again in" and "ms" (Python raises on an empty separator; we return `[s]`
there, which no caller reaches). -/
def pySplit (s sep : String) : List String :=
  if sep.data = [] then [s]
  else (pySplitAux sep.data s.data.length [] s.data).map String.mk

example : pySplit "a,b,,c" "," = ["a", "b", "", "c"] := by decide
example : pySplit ",a," "," = ["", "a", ""] := by decide
example : pySplit "aaa" "aa" = ["", "a"] := by decide

/-- Digit run of Python `int(str)`: a non-empty ASCII digit sequence in which
an underscore may appear only between two digits. (Python also accepts
non-ASCII decimal digits; none can occur in the error messages modelled.) -/
def pyDigitsAux : Nat → List Char → Option Nat
  | acc, [] => some acc
  | acc, '_' :: c :: rest =>
    if c.isDigit then pyDigitsAux (acc * 10 + (c.toNat - 48)) rest else .none
  | acc, c :: rest =>
    if c.isDigit then pyDigitsAux (acc * 10 + (c.toNat - 48)) rest else .none

/-- A non-empty digit sequence, leading underscore rejected. -/
def pyDigits : List Char → Option Nat
  | [] => .none
  | c :: rest => if c.isDigit then pyDigitsAux (c.toNat - 48) rest else .none

/-- Python `int(s)` on an already-stripped string: optional sign followed by
digits; `Option.none` when Python would raise `ValueError`. -/
def pyInt (s : String) : Option Int :=
  match s.data with
  | '+' :: rest => (pyDigits rest).map Int.ofNat
  | '-' :: rest => (pyDigits rest).map fun n => -(n : Int)
  | l => (pyDigits l).map Int.ofNat

example : pyInt "558" = some 558 := by decide
example : pyInt "-5" = some (-5) := by decide
example : pyInt "1_0" = some 10 := by decide
example : pyInt "1__0" = Option.none := by decide
example : pyInt "" = Option.none := by decide
example : pyInt "5s" = Option.none := by decide

/-- The wait-time extraction of `call_with_retries`: if the message contains
both "try again in" and "ms", take `msg.split("try again in")[1]`, then its
prefix before the first "ms", strip it and parse it with `int`.
`Option.none` when the guard fails or `int` would raise. -/
def suggestedWaitMs (msg : String) : Option Int :=
  if pyIn "try again in" msg && pyIn "ms" msg then
    pyInt (pyStrip ((pySplit ((pySplit msg "try again in").getD 1 "") "ms").headD ""))
  else .none

example : suggestedWaitMs "Rate limit reached, please try again in 558ms." = some 558 := by decide
example : suggestedWaitMs "Rate limit reached" = Option.none := by decide
example : suggestedWaitMs "try again in eight ms" = Option.none := by decide

/-- Seconds slept for one rate-limited attempt, index `retry`. If a
suggested wait was parsed, the code sleeps `ms / 1000` seconds — except that
for a negative `ms` the `time.sleep` call raises `ValueError`, the bare
`except` around it swallows the error, and control falls through to the
exponential branch; so a negative parse also backs off `min(2 ** retry, 30)`
seconds, like an unparseable message. -/
def rateLimitSleep (msg : String) (retry : Nat) : ℚ :=
  match suggestedWaitMs msg with
  | some ms => if ms < 0 then min ((2 : ℚ) ^ retry) 30 else (ms : ℚ) / 1000
  | .none => min ((2 : ℚ) ^ retry) 30

/-- Outcome of one underlying API call, as `call_with_retries` distinguishes
them: a returned value, an `openai.RateLimitError` (with its message text), or
any other exception. -/
inductive CallResult where
  | success (v : String)
  | rateLimit (msg : String)
  | otherError (e : String)
deriving DecidableEq

/-- How `call_with_retries` terminates: the call's value, an immediately
re-raised non-rate-limit error, or the final
`RuntimeError("Max retries reached for API call")` — a constructor distinct
from both other terminal states. -/
inductive RetryOutcome where
  | ok (v : String)
  | fatal (e : String)
  | exhausted
deriving DecidableEq

/-- The `for retry in range(max_retries)` loop of `call_with_retries`, run on
the list of remaining attempt indices. `func i` is what the wrapped call does
on attempt `i`. Returns the terminal state paired with the list of sleep
durations (seconds) in the order they were performed; an exhausted index list
reaches the final `raise RuntimeError`. -/
def retryLoop (func : Nat → CallResult) : List Nat → RetryOutcome × List ℚ
  | [] => (.exhausted, [])
  | retry :: rest =>
    match func retry with
    | .success v => (.ok v, [])
    | .rateLimit msg =>
      let r := retryLoop func rest
      (r.1, rateLimitSleep msg retry :: r.2)
    | .otherError e => (.fatal e, [])

/-- `call_with_retries(func, max_retries)` (the source's default for
`max_retries` is 8). -/
def call_with_retries (func : Nat → CallResult) (max_retries : Nat) : RetryOutcome × List ℚ :=
  retryLoop func (List.range max_retries)

example :
    call_with_retries (fun i => if i < 2 then .rateLimit "try again in 250ms" else .success "yes") 8 =
      (.ok "yes", [1 / 4, 1 / 4]) := by
  have hr : List.range 8 = [0, 1, 2, 3, 4, 5, 6, 7] := by decide
  have hw : suggestedWaitMs "try again in 250ms" = some 250 := by decide
  rw [call_with_retries, hr]
  simp [retryLoop, rateLimitSleep, hw]
  norm_num
example :
    call_with_retries (fun _ => .rateLimit "busy") 3 = (.exhausted, [1, 2, 4]) := by
  have hr : List.range 3 = [0, 1, 2] := by decide
  have hw : suggestedWaitMs "busy" = Option.none := by decide
  rw [call_with_retries, hr]
  simp [retryLoop, rateLimitSleep, hw]
  norm_num
example :
    call_with_retries (fun _ => .otherError "auth") 8 = (.fatal "auth", []) := by
  have hr : List.range 8 = [0, 1, 2, 3, 4, 5, 6, 7] := by decide
  rw [call_with_retries, hr]
  simp [retryLoop]

/-! ## The request dispatcher (`is_gpt5_model` / `ask_gpt` in `run_all_prompts.py`) -/

/-- `is_gpt5_model`: the model belongs to the GPT-5 family iff its name
starts with "gpt-5". -/
def is_gpt5_model (model_name : String) : Bool :=
  pyStartswith model_name "gpt-5"

/-- The request-shaping fields of the `kwargs` dict built by `api_call`
inside `ask_gpt`: the model name and the token-limit entries, each present
(`some`) or absent (`Option.none`) as a dict key. The messages/image payload
carries no logic and is omitted. -/
structure ChatRequest where
  model : String
  max_tokens : Option Nat
  max_completion_tokens : Option Nat
deriving DecidableEq

/-- The `kwargs` construction of `api_call`: GPT-5-family models get
`max_completion_tokens = 20`, every other model gets `max_tokens = 5`. -/
def api_call_kwargs (model_to_use : String) : ChatRequest :=
  if is_gpt5_model model_to_use then
    { model := model_to_use, max_tokens := Option.none, max_completion_tokens := some 20 }
  else
    { model := model_to_use, max_tokens := some 5, max_completion_tokens := Option.none }

example : (api_call_kwargs "gpt-5.1").max_completion_tokens = some 20 := by decide
example : (api_call_kwargs "gpt-4o").max_tokens = some 5 := by decide

/-! ## The run orchestrator (`run_prompt_mode` in `run_all_prompts.py`) -/

/-- One parsed row of `GroundTruth.csv`: folder, file name, and the list of
objects known absent from the image (the parsed value of the `no` column). -/
structure GtRow where
  foldername : String
  filename : String
  no_list : List String
deriving DecidableEq

/-- One entry of the `results` list that `run_prompt_mode` accumulates and
dumps to JSON. -/
structure RunRecord where
  model : String
  prompt : String
  filename : String
  foldername : String
  object : String
  flag : Int
  gpt_raw_answer : String
deriving DecidableEq

/-- The inner `for obj in no_list` loop of `run_prompt_mode`: dispatch each
object of one ground-truth row and build its records. `dispatch r obj` is
what `ask_gpt` does for that tuple: `.ok` with the raw answer, or `.error`
with the exception (`RuntimeError` on exhausted retries or any other fatal
fault), which aborts the whole run. -/
def run_objects (model prompt : String) (dispatch : GtRow → String → Except String String)
    (r : GtRow) : List String → Except String (List RunRecord)
  | [] => .ok []
  | obj :: rest =>
    match dispatch r obj with
    | .error e => .error e
    | .ok raw =>
      match run_objects model prompt dispatch r rest with
      | .error e => .error e
      | .ok more =>
        .ok (RunRecord.mk model prompt r.filename r.foldername obj 0 raw :: more)

/-- `run_prompt_mode` for one (model, prompt-variant) pair: iterate the
ground-truth rows in file order, skip rows outside the target folders and
rows whose image file is missing (`img r = false`), dispatch every object of
the remaining rows, and — only when the loop finishes — return the record
list that the source then writes to `results/{model}_{prompt}_results.json`.
A `.error` models an exception reaching `run_prompt_mode`, which in the
source propagates before `json.dump`: nothing is persisted. -/
def run_prompt_mode (model prompt : String) (targets : List String) (img : GtRow → Bool)
    (dispatch : GtRow → String → Except String String) : List GtRow → Except String (List RunRecord)
  | [] => .ok []
  | r :: rest =>
    if r.foldername ∈ targets then
      if img r then
        match run_objects model prompt dispatch r r.no_list with
        | .error e => .error e
        | .ok recs =>
          match run_prompt_mode model prompt targets img dispatch rest with
          | .error e => .error e
          | .ok more => .ok (recs ++ more)
      else run_prompt_mode model prompt targets img dispatch rest
    else run_prompt_mode model prompt targets img dispatch rest

/-! ## The result aggregator (`evaluate_results.py`) -/

/-- One row of the DataFrame `load_all_results` builds: a persisted
`QueryRecord` with its raw answer kept as the JSON value read back. -/
structure EvalRecord where
  model : String
  prompt : String
  filename : String
  foldername : String
  object : String
  flag : Int
  gpt_raw_answer : PyVal
deriving DecidableEq

/-- The false-positive indicator column:
`df["is_fp"] = (df["flag"] == 0) & (df["gpt_raw_answer_norm"] == "yes")`. -/
def is_fp (r : EvalRecord) : Bool :=
  (r.flag == 0) && (normalize_answer r.gpt_raw_answer == "yes")

/-- One output row of the groupby-aggregate: the group key, `total` (the row
count of the group), `fp` (the sum of the indicator), and
`hallucination_rate = fp / total`. -/
structure RateRow (κ : Type) where
  key : κ
  total : Nat
  fp : Nat
  hallucination_rate : ℚ
deriving DecidableEq

/-- The shared `df.groupby(keys).agg(total=..., fp=...)` computation of
`compute_overall_metrics` / `compute_object_level` / `compute_folder_level`:
one row per key tuple occurring in the data, with that group's row count,
false-positive count, and their ratio. (pandas emits the keys sorted; the
order of rows is irrelevant to every property proved here, so the occurring
keys are listed in `dedup` order instead. `total=("object", "count")` counts
the group's non-null `object` cells; `object` is a plain string column, so
that is the group's row count.) -/
def groupRate {κ : Type} [DecidableEq κ] (key : EvalRecord → κ) (rs : List EvalRecord) :
    List (RateRow κ) :=
  ((rs.map key).dedup).map fun k =>
    let g := rs.filter fun r => decide (key r = k)
    { key := k, total := g.length, fp := (g.filter is_fp).length,
      hallucination_rate := ((g.filter is_fp).length : ℚ) / (g.length : ℚ) }

/-- `compute_overall_metrics`: group by (model, prompt). -/
def compute_overall_metrics (rs : List EvalRecord) : List (RateRow (String × String)) :=
  groupRate (fun r => (r.model, r.prompt)) rs

/-- `compute_object_level`: group by (model, prompt, object). -/
def compute_object_level (rs : List EvalRecord) : List (RateRow (String × String × String)) :=
  groupRate (fun r => (r.model, r.prompt, r.object)) rs

/-- `compute_folder_level`: group by (model, prompt, foldername). -/
def compute_folder_level (rs : List EvalRecord) : List (RateRow (String × String × String)) :=
  groupRate (fun r => (r.model, r.prompt, r.foldername)) rs

/-! ## The case finder (`find_typical_cases.py`) -/

/-- The join key of `find_cases`: `["filename", "object", "foldername", "flag"]`. -/
def caseKey (r : EvalRecord) : String × String × String × Int :=
  (r.filename, r.object, r.foldername, r.flag)

/-- `pd.merge(left, right, on=key)` — the inner join: every pair of a left
and a right record sharing the key tuple, in left-major order; records with
no partner on the other side produce no pair. -/
def pdMerge (l r : List EvalRecord) : List (EvalRecord × EvalRecord) :=
  l.flatMap fun b => (r.filter fun v => decide (caseKey v = caseKey b)).map fun v => (b, v)

/-- The Case A filter: `flag == 0`, base answer normalized "no", variant
answer normalized "yes" (baseline correct, variant hallucinated). -/
def caseA_filter (m : List (EvalRecord × EvalRecord)) : List (EvalRecord × EvalRecord) :=
  m.filter fun p =>
    (p.1.flag == 0) && (normalize p.1.gpt_raw_answer == "no")
      && (normalize p.2.gpt_raw_answer == "yes")

/-- The Case B filter: `flag == 0`, base answer normalized "yes", variant
answer normalized "no" (baseline hallucinated, variant corrected). -/
def caseB_filter (m : List (EvalRecord × EvalRecord)) : List (EvalRecord × EvalRecord) :=
  m.filter fun p =>
    (p.1.flag == 0) && (normalize p.1.gpt_raw_answer == "yes")
      && (normalize p.2.gpt_raw_answer == "no")

/-- `find_cases(df)`: select the baseline / misleading1 / mitigate1 rows,
join baseline with each variant on `caseKey`, and filter Case A from the
baseline-misleading join and Case B from the baseline-mitigation join. -/
def find_cases (df : List EvalRecord) :
    List (EvalRecord × EvalRecord) × List (EvalRecord × EvalRecord) :=
  let base := df.filter fun r => r.prompt == "baseline"
  let mis := df.filter fun r => r.prompt == "misleading1"
  let miti := df.filter fun r => r.prompt == "mitigate1"
  (caseA_filter (pdMerge base mis), caseB_filter (pdMerge base miti))

/-! ## Helper lemmas -/

theorem isPrefixOf_single (c : Char) (l : List Char) :
    [c].isPrefixOf l = true ↔ l.head? = some c := by
  cases l with
  | nil => simp [List.isPrefixOf]
  | cons a t =>
    simp [List.isPrefixOf]
    exact eq_comm

theorem pyIsSpace_pyLowerChar (c : Char) : pyIsSpace (pyLowerChar c) = pyIsSpace c := by
  unfold pyLowerChar
  by_cases h1 : c = 'A'
  · subst h1; decide
  rw [if_neg h1]
  by_cases h2 : c = 'B'
  · subst h2; decide
  rw [if_neg h2]
  by_cases h3 : c = 'C'
  · subst h3; decide
  rw [if_neg h3]
  by_cases h4 : c = 'D'
  · subst h4; decide
  rw [if_neg h4]
  by_cases h5 : c = 'E'
  · subst h5; decide
  rw [if_neg h5]
  by_cases h6 : c = 'F'
  · subst h6; decide
  rw [if_neg h6]
  by_cases h7 : c = 'G'
  · subst h7; decide
  rw [if_neg h7]
  by_cases h8 : c = 'H'
  · subst h8; decide
  rw [if_neg h8]
  by_cases h9 : c = 'I'
  · subst h9; decide
  rw [if_neg h9]
  by_cases h10 : c = 'J'
  · subst h10; decide
  rw [if_neg h10]
  by_cases h11 : c = 'K'
  · subst h11; decide
  rw [if_neg h11]
  by_cases h12 : c = 'L'
  · subst h12; decide
  rw [if_neg h12]
  by_cases h13 : c = 'M'
  · subst h13; decide
  rw [if_neg h13]
  by_cases h14 : c = 'N'
  · subst h14; decide
  rw [if_neg h14]
  by_cases h15 : c = 'O'
  · subst h15; decide
  rw [if_neg h15]
  by_cases h16 : c = 'P'
  · subst h16; decide
  rw [if_neg h16]
  by_cases h17 : c = 'Q'
  · subst h17; decide
  rw [if_neg h17]
  by_cases h18 : c = 'R'
  · subst h18; decide
  rw [if_neg h18]
  by_cases h19 : c = 'S'
  · subst h19; decide
  rw [if_neg h19]
  by_cases h20 : c = 'T'
  · subst h20; decide
  rw [if_neg h20]
  by_cases h21 : c = 'U'
  · subst h21; decide
  rw [if_neg h21]
  by_cases h22 : c = 'V'
  · subst h22; decide
  rw [if_neg h22]
  by_cases h23 : c = 'W'
  · subst h23; decide
  rw [if_neg h23]
  by_cases h24 : c = 'X'
  · subst h24; decide
  rw [if_neg h24]
  by_cases h25 : c = 'Y'
  · subst h25; decide
  rw [if_neg h25]
  by_cases h26 : c = 'Z'
  · subst h26; decide
  rw [if_neg h26]

theorem dropWhile_map_pyLowerChar (l : List Char) :
    (l.map pyLowerChar).dropWhile pyIsSpace = (l.dropWhile pyIsSpace).map pyLowerChar := by
  induction l with
  | nil => simp
  | cons a t ih =>
    simp only [List.map_cons, List.dropWhile_cons, pyIsSpace_pyLowerChar]
    cases hp : pyIsSpace a <;> simp [hp, ih]

theorem pyStrip_pyLower (s : String) : pyStrip (pyLower s) = pyLower (pyStrip s) := by
  unfold pyStrip pyLower
  congr 1
  simp only [dropWhile_map_pyLowerChar, ← List.map_reverse]

/-- Claim C4: the answer normalizer is total — every input yields exactly one
of "yes" / "no" / "unknown", non-strings yield "unknown", and a string is
classified by the first character of its stripped, lower-cased form: 'y'
yields "yes", 'n' yields "no", anything else (including the empty string)
yields "unknown". Totality (no exception) is inherent in `normalize_answer`
being a Lean function. -/
theorem normalize_answer_spec :
    (∀ v : PyVal,
      normalize_answer v = "yes" ∨ normalize_answer v = "no" ∨ normalize_answer v = "unknown") ∧
    (∀ v : PyVal, (∀ s, v ≠ PyVal.str s) → normalize_answer v = "unknown") ∧
    (∀ s : String, (pyLower (pyStrip s)).data.head? = some 'y' →
      normalize_answer (PyVal.str s) = "yes") ∧
    (∀ s : String, (pyLower (pyStrip s)).data.head? = some 'n' →
      normalize_answer (PyVal.str s) = "no") ∧
    (∀ s : String, (pyLower (pyStrip s)).data.head? ≠ some 'y' →
      (pyLower (pyStrip s)).data.head? ≠ some 'n' →
      normalize_answer (PyVal.str s) = "unknown") := by
  have hy : ∀ t : String, pyStartswith t "y" = true ↔ t.data.head? = some 'y' := by
    intro t
    rw [pyStartswith, show "y".data = ['y'] from rfl]
    exact isPrefixOf_single 'y' t.data
  have hn : ∀ t : String, pyStartswith t "n" = true ↔ t.data.head? = some 'n' := by
    intro t
    rw [pyStartswith, show "n".data = ['n'] from rfl]
    exact isPrefixOf_single 'n' t.data
  refine ⟨fun v => ?_, fun v hv => ?_, fun s h => ?_, fun s h => ?_, fun s hny hnn => ?_⟩
  · cases v with
    | str s =>
      simp only [normalize_answer]
      split
      · tauto
      · split <;> tauto
    | int n => tauto
    | float q => tauto
    | bool b => tauto
    | none => tauto
  · cases v with
    | str s => exact absurd rfl (hv s)
    | int n => rfl
    | float q => rfl
    | bool b => rfl
    | none => rfl
  · have h1 : pyStartswith (pyLower (pyStrip s)) "y" = true := (hy _).mpr h
    simp only [normalize_answer]
    simp [h1]
  · have h1 : pyStartswith (pyLower (pyStrip s)) "y" = false := by
      cases hb : pyStartswith (pyLower (pyStrip s)) "y"
      · rfl
      · rw [(hy _).mp hb] at h
        exact absurd h (by decide)
    have h2 : pyStartswith (pyLower (pyStrip s)) "n" = true := (hn _).mpr h
    simp only [normalize_answer]
    simp [h1, h2]
  · have h1 : pyStartswith (pyLower (pyStrip s)) "y" = false := by
      cases hb : pyStartswith (pyLower (pyStrip s)) "y"
      · rfl
      · exact absurd ((hy _).mp hb) hny
    have h2 : pyStartswith (pyLower (pyStrip s)) "n" = false := by
      cases hb : pyStartswith (pyLower (pyStrip s)) "n"
      · rfl
      · exact absurd ((hn _).mp hb) hnn
    simp only [normalize_answer]
    simp [h1, h2]

/-- Claim C10: the aggregator's `normalize_answer` (strip, then lower) and
the case finder's `normalize` (lower, then strip) are extensionally equal. -/
theorem normalizers_agree (v : PyVal) : normalize_answer v = normalize v := by
  cases v with
  | str s => simp only [normalize_answer, normalize, pyStrip_pyLower]
  | _ => rfl

/-- Claim C5: the request payload's token-limit parameter is chosen by the
model identifier — a model whose name starts with "gpt-5" gets
`max_completion_tokens = 20` and no `max_tokens`; every other model gets
`max_tokens = 5` and no `max_completion_tokens`; exactly one of the two keys
is present in any request. -/
theorem ask_gpt_token_limit_spec (m : String) :
    (api_call_kwargs m).max_completion_tokens
        = (if is_gpt5_model m then some 20 else Option.none) ∧
    (api_call_kwargs m).max_tokens = (if is_gpt5_model m then Option.none else some 5) ∧
    ((api_call_kwargs m).max_completion_tokens).isSome
        = !((api_call_kwargs m).max_tokens).isSome ∧
    is_gpt5_model m = pyStartswith m "gpt-5" := by
  refine ⟨?_, ?_, ?_, rfl⟩ <;>
    unfold api_call_kwargs <;> cases h : is_gpt5_model m <;> simp [h]

theorem retryLoop_skips_rateLimits (func : Nat → CallResult) (l1 l2 : List Nat)
    (h : ∀ i ∈ l1, ∃ m, func i = CallResult.rateLimit m) :
    (retryLoop func (l1 ++ l2)).1 = (retryLoop func l2).1 ∧
    (retryLoop func (l1 ++ l2)).2.length = l1.length + (retryLoop func l2).2.length := by
  induction l1 with
  | nil => simp
  | cons a t ih =>
    obtain ⟨m, hm⟩ := h a (List.mem_cons_self a t)
    have iht := ih fun i hi => h i (List.mem_cons_of_mem a hi)
    have hstep : retryLoop func ((a :: t) ++ l2) =
        ((retryLoop func (t ++ l2)).1,
          rateLimitSleep m a :: (retryLoop func (t ++ l2)).2) := by
      simp [retryLoop, hm]
    constructor
    · rw [hstep]
      exact iht.1
    · rw [hstep]
      simp only [List.length_cons, iht.2]
      simp [Nat.add_comm, Nat.add_assoc, Nat.add_left_comm]

/-- Claim C1: on every rate-limited attempt the wrapper performs exactly one
sleep and proceeds to the next attempt; the slept duration is `ms / 1000`
seconds when a millisecond wait `ms` was parsed from the message (pattern
"try again in [N]ms"), and `min(2 ** a, 30)` seconds — exponential backoff
capped at 30s over the zero-based attempt index — when no wait can be
parsed. -/
theorem retry_rateLimit_backoff (func : Nat → CallResult) (a : Nat) (rest : List Nat)
    (msg : String) (hf : func a = CallResult.rateLimit msg) :
    retryLoop func (a :: rest) =
      ((retryLoop func rest).1, rateLimitSleep msg a :: (retryLoop func rest).2) ∧
    (∀ ms : Int, suggestedWaitMs msg = some ms → 0 ≤ ms →
      rateLimitSleep msg a = (ms : ℚ) / 1000) ∧
    (suggestedWaitMs msg = Option.none → rateLimitSleep msg a = min ((2 : ℚ) ^ a) 30) := by
  refine ⟨by simp [retryLoop, hf], fun ms hms hnn => ?_, fun hms => ?_⟩
  · simp only [rateLimitSleep, hms]
    rw [if_neg (by omega)]
  · simp only [rateLimitSleep, hms]

/-- Witness for C1 at concrete inputs: a parseable message sleeps the
suggested 558ms as 0.558s; an unparseable one backs off `2 ^ 3 = 8` seconds
at attempt index 3. -/
theorem retry_rateLimit_backoff_witness :
    rateLimitSleep "Rate limit reached, please try again in 558ms." 0 = 558 / 1000 ∧
    rateLimitSleep "Rate limit reached" 3 = 8 := by
  have h1 := retry_rateLimit_backoff
    (fun _ => CallResult.rateLimit "Rate limit reached, please try again in 558ms.") 0 []
    "Rate limit reached, please try again in 558ms." rfl
  have h2 := retry_rateLimit_backoff (fun _ => CallResult.rateLimit "Rate limit reached") 3 []
    "Rate limit reached" rfl
  constructor
  · rw [h1.2.1 558 (by decide) (by decide)]
    norm_num
  · rw [h2.2.2 (by decide)]
    norm_num

/-- Claim C6: a non-rate-limit failure at attempt `k` is propagated
immediately — the wrapper terminates in the `fatal` state carrying that
error, with no further attempt and no sleep on the failing attempt (the
slept list has exactly the `k` entries of the earlier rate-limited
attempts), however many attempts remain. -/
theorem retry_fatal_propagates (func : Nat → CallResult) (maxRetries k : Nat) (e : String)
    (hk : k < maxRetries) (he : func k = CallResult.otherError e)
    (hpre : ∀ i, i < k → ∃ m, func i = CallResult.rateLimit m) :
    (call_with_retries func maxRetries).1 = RetryOutcome.fatal e ∧
    (call_with_retries func maxRetries).2.length = k := by
  obtain ⟨d, rfl⟩ : ∃ d, maxRetries = k + (d + 1) := ⟨maxRetries - k - 1, by omega⟩
  have hdec : List.range (k + (d + 1)) = List.range k ++ (k :: List.range' (k + 1) d) := by
    rw [List.range_add, ← List.range'_eq_map_range, List.range'_succ]
  have hs := retryLoop_skips_rateLimits func (List.range k) (k :: List.range' (k + 1) d)
    fun i hi => hpre i (List.mem_range.mp hi)
  have hfatal : retryLoop func (k :: List.range' (k + 1) d) = (RetryOutcome.fatal e, []) := by
    simp [retryLoop, he]
  rw [call_with_retries, hdec]
  refine ⟨by rw [hs.1, hfatal], ?_⟩
  rw [hs.2, hfatal]
  simp

/-- Witness for C6: one rate-limited attempt, then an authentication fault —
the wrapper ends fatal with that error after a single sleep, although seven
attempts remain. -/
theorem retry_fatal_propagates_witness :
    (call_with_retries (fun i => if i = 0 then CallResult.rateLimit "busy"
      else CallResult.otherError "boom") 8).1 = RetryOutcome.fatal "boom" ∧
    (call_with_retries (fun i => if i = 0 then CallResult.rateLimit "busy"
      else CallResult.otherError "boom") 8).2.length = 1 :=
  retry_fatal_propagates _ 8 1 "boom" (by omega) rfl
    fun i hi => ⟨"busy", by interval_cases i; rfl⟩

/-- Claim C7: when every attempt rate-limits, the wrapper ends in the
distinct `exhausted` terminal state (the source's
`RuntimeError("Max retries reached for API call")`), which equals neither a
propagated underlying error (`fatal`) nor a success, so callers can tell
quota exhaustion from a single fatal fault. -/
theorem retry_exhausted_spec (func : Nat → CallResult) (maxRetries : Nat)
    (h : ∀ i, i < maxRetries → ∃ m, func i = CallResult.rateLimit m) :
    (call_with_retries func maxRetries).1 = RetryOutcome.exhausted ∧
    (∀ e, RetryOutcome.exhausted ≠ RetryOutcome.fatal e) ∧
    (∀ v, RetryOutcome.exhausted ≠ RetryOutcome.ok v) := by
  refine ⟨?_, fun e hne => RetryOutcome.noConfusion hne,
    fun v hne => RetryOutcome.noConfusion hne⟩
  have hs := retryLoop_skips_rateLimits func (List.range maxRetries) []
    fun i hi => h i (List.mem_range.mp hi)
  rw [call_with_retries, ← List.append_nil (List.range maxRetries)]
  exact hs.1

/-- Witness for C7: three attempts, all rate-limited with an unparseable
message — the outcome is `exhausted`. -/
theorem retry_exhausted_spec_witness :
    (call_with_retries (fun _ => CallResult.rateLimit "busy") 3).1 = RetryOutcome.exhausted :=
  (retry_exhausted_spec (fun _ => CallResult.rateLimit "busy") 3
    fun _ _ => ⟨"busy", rfl⟩).1

theorem mem_groupRate {κ : Type} [DecidableEq κ] (key : EvalRecord → κ) (rs : List EvalRecord)
    (row : RateRow κ) (h : row ∈ groupRate key rs) :
    row.total = (rs.filter fun r => decide (key r = row.key)).length ∧
    row.fp = ((rs.filter fun r => decide (key r = row.key)).filter is_fp).length ∧
    row.hallucination_rate = (row.fp : ℚ) / (row.total : ℚ) ∧
    0 < row.total := by
  unfold groupRate at h
  obtain ⟨k, hk, rfl⟩ := List.mem_map.mp h
  refine ⟨rfl, rfl, rfl, ?_⟩
  obtain ⟨r, hr, hkr⟩ := List.mem_map.mp (List.mem_dedup.mp hk)
  have hmem : r ∈ rs.filter fun r => decide (key r = k) :=
    List.mem_filter.mpr ⟨hr, by simp [hkr]⟩
  exact List.length_pos.mpr (List.ne_nil_of_mem hmem)

theorem headD_mem {α : Type} (l : List α) (d : α) (h : l ≠ []) : l.headD d ∈ l := by
  cases l with
  | nil => exact absurd rfl h
  | cons a t => exact List.mem_cons_self a t

theorem getD_mem {α : Type} : ∀ (l : List α) (n : Nat) (d : α), n < l.length → l.getD n d ∈ l
  | [], n, _, h => absurd h (by simp)
  | a :: t, 0, _, _ => List.mem_cons_self a t
  | a :: t, n + 1, d, h => List.mem_cons_of_mem a (getD_mem t n d (by simpa using h))

/-- The three records of the aggregator test vector: two "dog" probes
(answered "yes" and "no") and one "cat" probe (answered "yes"), all with
`flag = 0` under one (model, prompt) pair. -/
def c2rec (object ans : String) : EvalRecord :=
  { model := "gpt-4o", prompt := "baseline", filename := "a.jpg", foldername := "f",
    object := object, flag := 0, gpt_raw_answer := PyVal.str ans }

def c2records : List EvalRecord := [c2rec "dog" "yes", c2rec "dog" "no", c2rec "cat" "yes"]

/-- Claim C2: a record is counted as a false positive iff `flag == 0` and its
normalized answer is "yes"; every row of the object-level table has `total` =
the row count of its group, `fp` = the number of the group's false positives,
and `hallucination_rate = fp / total`; on the three-record test vector the
"dog" group gets total 2, fp 1, rate 1/2 and the "cat" group total 1, fp 1,
rate 1. -/
theorem compute_object_level_spec :
    (∀ rs row, row ∈ compute_object_level rs →
      row.total = (rs.filter fun r =>
        decide ((r.model, r.prompt, r.object) = row.key)).length ∧
      row.fp = (rs.filter fun r =>
        ((r.flag == 0) && (normalize_answer r.gpt_raw_answer == "yes"))
          && decide ((r.model, r.prompt, r.object) = row.key)).length ∧
      row.hallucination_rate = (row.fp : ℚ) / (row.total : ℚ)) ∧
    (∃ row ∈ compute_object_level c2records,
      row.key = ("gpt-4o", "baseline", "dog") ∧ row.total = 2 ∧ row.fp = 1 ∧
      row.hallucination_rate = 1 / 2) ∧
    (∃ row ∈ compute_object_level c2records,
      row.key = ("gpt-4o", "baseline", "cat") ∧ row.total = 1 ∧ row.fp = 1 ∧
      row.hallucination_rate = 1) ∧
    (compute_object_level c2records).length = 2 := by
  have hmain : ∀ rs row, row ∈ compute_object_level rs →
      row.total = (rs.filter fun r =>
        decide ((r.model, r.prompt, r.object) = row.key)).length ∧
      row.fp = (rs.filter fun r =>
        ((r.flag == 0) && (normalize_answer r.gpt_raw_answer == "yes"))
          && decide ((r.model, r.prompt, r.object) = row.key)).length ∧
      row.hallucination_rate = (row.fp : ℚ) / (row.total : ℚ) := by
    intro rs row h
    obtain ⟨h1, h2, h3, _⟩ := mem_groupRate _ rs row h
    refine ⟨h1, ?_, h3⟩
    rw [h2, List.filter_filter]
    simp only [is_fp]
  refine ⟨hmain, ?_, ?_, ?_⟩
  · refine ⟨(compute_object_level c2records).headD
      { key := ("", "", ""), total := 0, fp := 0, hallucination_rate := 0 }, ?_, ?_⟩
    · exact headD_mem _ _ (by decide)
    · refine ⟨by decide, by decide, by decide, ?_⟩
      show ((1 : Nat) : ℚ) / ((2 : Nat) : ℚ) = 1 / 2
      norm_num
  · refine ⟨(compute_object_level c2records).getD 1
      { key := ("", "", ""), total := 0, fp := 0, hallucination_rate := 0 }, ?_, ?_⟩
    · exact getD_mem _ 1 _ (by decide)
    · refine ⟨by decide, by decide, by decide, ?_⟩
      show ((1 : Nat) : ℚ) / ((1 : Nat) : ℚ) = 1
      norm_num
  · decide

/-- Claim C8: every row emitted by any of the three aggregations
(model+prompt, +object, +folder) has `total ≥ 1` — groups come only from key
tuples occurring in the data, so no zero-total row and no division by zero
can occur. -/
theorem rate_rows_total_pos :
    (∀ rs row, row ∈ compute_overall_metrics rs → 1 ≤ row.total) ∧
    (∀ rs row, row ∈ compute_object_level rs → 1 ≤ row.total) ∧
    (∀ rs row, row ∈ compute_folder_level rs → 1 ≤ row.total) :=
  ⟨fun _ _ h => (mem_groupRate _ _ _ h).2.2.2,
   fun _ _ h => (mem_groupRate _ _ _ h).2.2.2,
   fun _ _ h => (mem_groupRate _ _ _ h).2.2.2⟩

/-- Baseline record of the case-finder test vector: object "dog" absent
(`flag = 0`), answered "no". -/
def c3base : EvalRecord :=
  { model := "gpt-5.1", prompt := "baseline", filename := "a.jpg", foldername := "dog",
    object := "dog", flag := 0, gpt_raw_answer := PyVal.str "no" }

/-- Misleading-variant record with the same join key, answered "yes". -/
def c3mis : EvalRecord :=
  { c3base with prompt := "misleading1", gpt_raw_answer := PyVal.str "yes" }

def c3df : List EvalRecord := [c3base, c3mis]

/-- The swapped test vector: baseline answered 'yes', variant answered 'no'
(the variant now being the mitigation prompt, which Case B joins against). -/
def c3baseY : EvalRecord := { c3base with gpt_raw_answer := PyVal.str "yes" }

def c3mitiN : EvalRecord :=
  { c3base with prompt := "mitigate1", gpt_raw_answer := PyVal.str "no" }

def c3dfSwap : List EvalRecord := [c3baseY, c3mitiN]

/-- Claim C3: the case finder inner-joins the two record sets on
(filename, object, foldername, flag) — a pair is joined iff both records are
present and share the key, unmatched records are dropped; a joined pair with
`flag = 0`, base answer "no", variant answer "yes" lands in Case A and not in
Case B, and with the two answers swapped it lands in Case B and not in
Case A; on the two-record test vectors, `find_cases` places the pair in
exactly the expected case. -/
theorem find_cases_spec :
    (∀ (base variant : List EvalRecord) (b v : EvalRecord),
      (b, v) ∈ pdMerge base variant ↔ b ∈ base ∧ v ∈ variant ∧ caseKey b = caseKey v) ∧
    (∀ (m : List (EvalRecord × EvalRecord)) (p : EvalRecord × EvalRecord), p ∈ m →
      p.1.flag = 0 →
      ((normalize p.1.gpt_raw_answer = "no" ∧ normalize p.2.gpt_raw_answer = "yes" →
        p ∈ caseA_filter m ∧ p ∉ caseB_filter m) ∧
       (normalize p.1.gpt_raw_answer = "yes" ∧ normalize p.2.gpt_raw_answer = "no" →
        p ∈ caseB_filter m ∧ p ∉ caseA_filter m))) ∧
    find_cases c3df = ([(c3base, c3mis)], []) ∧
    find_cases c3dfSwap = ([], [(c3baseY, c3mitiN)]) := by
  refine ⟨?_, ?_, by decide, by decide⟩
  · intro base variant b v
    constructor
    · intro h
      obtain ⟨b', hb', hmem⟩ := List.mem_flatMap.mp h
      obtain ⟨v', hv', heq⟩ := List.mem_map.mp hmem
      obtain ⟨hv'', hk⟩ := List.mem_filter.mp hv'
      injection heq with h1 h2
      subst h1
      subst h2
      exact ⟨hb', hv'', (of_decide_eq_true hk).symm⟩
    · rintro ⟨hb, hv, hk⟩
      exact List.mem_flatMap.mpr
        ⟨b, hb, List.mem_map.mpr ⟨v, List.mem_filter.mpr ⟨hv, decide_eq_true hk.symm⟩, rfl⟩⟩
  · intro m p hm h0
    have hf : (p.1.flag == 0) = true := by simp [h0]
    have hne1 : (("no" : String) == "yes") = false := by decide
    have hne2 : (("yes" : String) == "no") = false := by decide
    constructor
    · rintro ⟨hno, hyes⟩
      refine ⟨List.mem_filter.mpr ⟨hm, ?_⟩, fun hc => ?_⟩
      · simp [caseA_filter, hf, hno, hyes]
      · have hpred := (List.mem_filter.mp hc).2
        simp [caseB_filter, hno, hyes, hne1, hne2] at hpred
    · rintro ⟨hyes, hno⟩
      refine ⟨List.mem_filter.mpr ⟨hm, ?_⟩, fun hc => ?_⟩
      · simp [caseB_filter, hf, hyes, hno]
      · have hpred := (List.mem_filter.mp hc).2
        simp [caseA_filter, hyes, hno, hne1, hne2] at hpred

theorem run_objects_ok_iff (model prompt : String)
    (dispatch : GtRow → String → Except String String) (r : GtRow) (objs : List String) :
    (∃ l, run_objects model prompt dispatch r objs = .ok l) ↔
    (∀ obj ∈ objs, ∃ a, dispatch r obj = .ok a) := by
  induction objs with
  | nil => simp [run_objects]
  | cons o t ih =>
    simp only [run_objects]
    cases hd : dispatch r o with
    | error e =>
      constructor
      · rintro ⟨l, hl⟩
        exact absurd hl (by simp)
      · intro hall
        obtain ⟨a, ha⟩ := hall o (List.mem_cons_self o t)
        rw [hd] at ha
        exact absurd ha (by simp)
    | ok a =>
      cases ht : run_objects model prompt dispatch r t with
      | error e =>
        constructor
        · rintro ⟨l, hl⟩
          exact absurd hl (by simp)
        · intro hall
          obtain ⟨l, hl⟩ := ih.mpr fun obj hobj => hall obj (List.mem_cons_of_mem o hobj)
          rw [ht] at hl
          exact absurd hl (by simp)
      | ok more =>
        constructor
        · rintro ⟨l, hl⟩ obj hobj
          rcases List.mem_cons.mp hobj with rfl | hmem
          · exact ⟨a, hd⟩
          · exact ih.mp ⟨more, ht⟩ obj hmem
        · intro _
          exact ⟨_, rfl⟩

/-- Claim C9: the run for one (model, prompt-variant) pair persists a record
collection exactly when every non-skipped tuple (row in a target folder with
an existing image, object in its absent list) dispatches successfully; any
fatal dispatch error makes the whole run abort with no persisted output —
a partial record list is never written. -/
theorem run_no_partial_persist (model prompt : String) (targets : List String)
    (img : GtRow → Bool) (dispatch : GtRow → String → Except String String)
    (rows : List GtRow) :
    (∃ l, run_prompt_mode model prompt targets img dispatch rows = .ok l) ↔
    (∀ r ∈ rows, r.foldername ∈ targets → img r = true →
      ∀ obj ∈ r.no_list, ∃ a, dispatch r obj = .ok a) := by
  induction rows with
  | nil => simp [run_prompt_mode]
  | cons r rest ih =>
    rw [List.forall_mem_cons]
    simp only [run_prompt_mode]
    by_cases hfold : r.foldername ∈ targets
    · rw [if_pos hfold]
      by_cases himg : img r = true
      case neg =>
        rw [if_neg himg, ih]
        constructor
        · intro htail
          exact ⟨fun _ hi => absurd hi himg, htail⟩
        · intro h
          exact h.2
      case pos =>
        rw [if_pos himg]
        cases ho : run_objects model prompt dispatch r r.no_list with
        | error e =>
          constructor
          · rintro ⟨l, hl⟩
            exact absurd hl (by simp)
          · intro h
            obtain ⟨l, hl⟩ :=
              (run_objects_ok_iff model prompt dispatch r r.no_list).mpr (h.1 hfold himg)
            rw [ho] at hl
            exact absurd hl (by simp)
        | ok recs =>
          constructor
          · rintro ⟨l, hl⟩
            refine ⟨fun _ _ => (run_objects_ok_iff model prompt dispatch r r.no_list).mp
              ⟨recs, ho⟩, ?_⟩
            cases hrest : run_prompt_mode model prompt targets img dispatch rest with
            | error e =>
              rw [hrest] at hl
              exact absurd hl (by simp)
            | ok more =>
              exact ih.mp ⟨more, hrest⟩
          · intro h
            obtain ⟨more, hmore⟩ := ih.mpr h.2
            rw [hmore]
            exact ⟨recs ++ more, rfl⟩
    · rw [if_neg hfold, ih]
      constructor
      · intro htail
        exact ⟨fun hi => absurd hi hfold, htail⟩
      · intro h
        exact h.2

end MRP
